import Mathlib

/-!
# Verification of the `mysql_async` connection lifecycle engine

Shallow embedding of `src/conn/mod.rs` (the connection lifecycle engine of an
asynchronous MySQL client) together with proofs about the claims of its
specification.  Pure state manipulation is translated directly; asynchronous
network interaction is modelled by passing explicit server-event values (an
"oracle") to the functions that await the wire.  Types that live outside the
covered source (the `mysql_common` packet parsers, the error type of
`error.rs`, the row-stream collaborator) are modelled from the specification
and are marked as such in their doc comments.
-/

namespace Mysql

/-! ## Basic wire-level data (modelled from the spec / `mysql_common`) -/

/-- OK packet payload, as parsed by `mysql_common::packets::OkPacket`.
Carries affected rows, last insert id, status flags, warning count and an
info string (spec glossary, "OK packet"). -/
structure OkPacket where
  affected_rows : Nat
  last_insert_id : Option Nat
  status_flags : Nat
  warnings : Nat
  infoStr : String
  deriving Repr, DecidableEq

/-- ERR packet payload, as parsed by `mysql_common::packets::ErrPacket`.
Carries an error code, SQL state and message (spec glossary, "ERR packet"). -/
structure ErrPacket where
  code : Nat
  sql_state : String
  message : String
  deriving Repr, DecidableEq

/-- `crate::queryable::transaction::TxStatus` (used in `conn/mod.rs`). -/
inductive TxStatus where
  | none
  | inTransaction
  | requiresRollback
  deriving Repr, DecidableEq

/-- `crate::queryable::query_result::ResultSetMeta`: the pending-result marker.
The column metadata carried by the `Text`/`Binary` arms is abstracted to its
count; the `Error` arm holds the deferred server error (spec §3). -/
inductive ResultSetMeta where
  | text (columns : Nat)
  | binary (columns : Nat)
  | error (e : ErrPacket)
  deriving Repr, DecidableEq

/-- `mysql_common::packets::AuthPlugin`: the closed set of auth plugins
(spec §3, "Auth Plugin"). -/
inductive AuthPlugin where
  | mysqlNativePassword
  | cachingSha2Password
  | other (name : List Nat)
  deriving Repr, DecidableEq

/-- Driver-side error variants of `crate::error::DriverError` used by
`conn/mod.rs`.  Modelled from the spec: `error.rs` is not part of the covered
source; the variants are the ones the covered code constructs. -/
inductive DriverError where
  | connectionClosed
  | unknownAuthPlugin (name : String)
  | unexpectedPacket (payload : List Nat)
  deriving Repr, DecidableEq

/-- `crate::error::Error`.  Modelled from the spec (§7): fatal IO and
protocol-violation (driver) errors versus non-fatal server errors. -/
inductive Error where
  | ioErr (msg : String)
  | driver (e : DriverError)
  | server (e : ErrPacket)
  deriving Repr, DecidableEq

/-- `Error::is_fatal`.  Modelled from the spec (§7): fatal IO and protocol
violations are fatal, a well-formed server ERR is not. -/
def Error.is_fatal : Error → Bool
  | .ioErr _ => true
  | .driver _ => true
  | .server _ => false

/-! ## Configuration and connection state -/

/-- The slice of `crate::opts::Opts` consumed by `conn/mod.rs`.  Durations are
seconds as `Nat`; passwords are byte lists; capability flags are a bitmask. -/
structure Opts where
  capabilities : Nat
  stmt_cache_size : Nat
  socket : Option String
  pass : Option (List Nat)
  user : Option String
  db_name : Option String
  initQueries : List String
  conn_ttl : Option Nat
  prefer_socket : Bool
  deriving Repr, DecidableEq

/-- `Opts::default()`. -/
def Opts.default : Opts :=
  { capabilities := 0
    stmt_cache_size := 0
    socket := Option.none
    pass := Option.none
    user := Option.none
    db_name := Option.none
    initQueries := []
    conn_ttl := Option.none
    prefer_socket := false }

/-- `crate::io::Stream`, abstracted to the one observation `conn/mod.rs`
makes of it (`is_secure`). -/
structure Stream where
  secure : Bool
  deriving Repr, DecidableEq

/-- `ConnInner` of `conn/mod.rs` (the per-connection session state).
`Instant`s are modelled as `Nat` timestamps, `Duration`s as `Nat` seconds.
The statement cache is a list of (query, statement id) pairs in MRU order. -/
structure ConnState where
  stream : Option Stream
  id : Nat
  version : Nat × Nat × Nat
  socket : Option String
  capabilities : Nat
  status : Nat
  last_ok_packet : Option OkPacket
  last_err_packet : Option ErrPacket
  pool : Option Nat
  pending_result : Option ResultSetMeta
  tx_status : TxStatus
  opts : Opts
  lastIoTime : Nat
  wait_timeout : Nat
  stmt_cache : List (String × Nat)
  nonce : List Nat
  auth_plugin : AuthPlugin
  auth_switched : Bool
  disconnected : Bool
  deriving Repr, DecidableEq

/-- `ConnInner::empty` (conn/mod.rs:114-136).  `Instant::now()` is passed in
as the timestamp `now`. -/
def ConnInner.empty (opts : Opts) (now : Nat) : ConnState :=
  { capabilities := opts.capabilities
    status := 0
    last_ok_packet := Option.none
    last_err_packet := Option.none
    stream := Option.none
    version := (0, 0, 0)
    id := 0
    pending_result := Option.none
    pool := Option.none
    tx_status := TxStatus.none
    lastIoTime := now
    wait_timeout := 0
    stmt_cache := []
    socket := opts.socket
    opts := opts
    nonce := []
    auth_plugin := AuthPlugin.mysqlNativePassword
    auth_switched := false
    disconnected := false }

/-! ## OK / ERR packet handling -/

/-- `Conn::handle_ok` (conn/mod.rs:229-233). -/
def handle_ok (st : ConnState) (ok_packet : OkPacket) : ConnState :=
  { st with
    status := ok_packet.status_flags
    last_err_packet := Option.none
    last_ok_packet := some ok_packet }

/-- `Conn::handle_err` (conn/mod.rs:236-240). -/
def handle_err (st : ConnState) (err_packet : ErrPacket) : ConnState :=
  { st with
    status := 0
    last_ok_packet := Option.none
    last_err_packet := some err_packet }

/-! ## Packet classification and the read/write primitives -/

/-- Modelled from the spec: `String::from_utf8_lossy`, restricted to the
ASCII range (plugin names and SQL states are ASCII); any non-ASCII byte maps
to the replacement character. -/
def utf8Lossy (bytes : List Nat) : String :=
  String.mk (bytes.map fun b => if b < 0x80 then Char.ofNat b else Char.ofNat 0xfffd)

/-- Modelled from the spec: the MySQL length-encoded integer used inside
OK packets (value, remaining bytes). -/
def read_lenenc : List Nat → Option (Nat × List Nat)
  | [] => Option.none
  | b :: rest =>
    if b < 0xfb then some (b, rest)
    else if b = 0xfc then
      match rest with
      | a :: c :: r => some (a + 0x100 * c, r)
      | _ => Option.none
    else if b = 0xfd then
      match rest with
      | a :: c :: d :: r => some (a + 0x100 * c + 0x10000 * d, r)
      | _ => Option.none
    else if b = 0xfe then
      match rest with
      | a :: c :: d :: e :: f :: g :: h2 :: i :: r =>
          some (a + 0x100 * c + 0x10000 * d + 0x1000000 * e + 0x100000000 * f +
            0x10000000000 * g + 0x1000000000000 * h2 + 0x100000000000000 * i, r)
      | _ => Option.none
    else Option.none

/-- `mysql_common::packets::OkPacketKind`: whether an OK packet is expected
as a result-set terminator (a result is pending) or standalone. -/
inductive OkPacketKind where
  | resultSetTerminator
  | other
  deriving Repr, DecidableEq

/-- Modelled from the spec: the body of an OK packet after the header byte —
length-encoded affected rows and last insert id, then 2-byte status flags and
2-byte warning count, then the info string; absent tail bytes read as zero. -/
def parse_ok_body (rest : List Nat) : OkPacket :=
  match read_lenenc rest with
  | Option.none =>
    { affected_rows := 0, last_insert_id := Option.none, status_flags := 0,
      warnings := 0, infoStr := "" }
  | some (affected, r1) =>
    match read_lenenc r1 with
    | Option.none =>
      { affected_rows := affected, last_insert_id := Option.none,
        status_flags := 0, warnings := 0, infoStr := "" }
    | some (lii, r2) =>
      let liOpt := if lii = 0 then Option.none else some lii
      match r2 with
      | s1 :: s2 :: w1 :: w2 :: infoBytes =>
        { affected_rows := affected, last_insert_id := liOpt,
          status_flags := s1 + 0x100 * s2, warnings := w1 + 0x100 * w2,
          infoStr := utf8Lossy infoBytes }
      | s1 :: s2 :: _ =>
        { affected_rows := affected, last_insert_id := liOpt,
          status_flags := s1 + 0x100 * s2, warnings := 0, infoStr := "" }
      | _ =>
        { affected_rows := affected, last_insert_id := liOpt,
          status_flags := 0, warnings := 0, infoStr := "" }

/-- Modelled from the spec: `mysql_common::packets::parse_ok_packet`.  An OK
packet is recognized by header byte 0x00, or — for a result-set terminator
under the deprecate-EOF rule — by header byte 0xfe with a short payload. -/
def parse_ok_packet (payload : List Nat) (kind : OkPacketKind) : Option OkPacket :=
  match payload with
  | 0x00 :: rest => some (parse_ok_body rest)
  | 0xfe :: rest =>
    match kind with
    | OkPacketKind.resultSetTerminator =>
      if payload.length < 9 then some (parse_ok_body rest) else Option.none
    | OkPacketKind.other => Option.none
  | _ => Option.none

/-- Modelled from the spec: `mysql_common::packets::parse_err_packet`.  An
ERR packet is recognized by header byte 0xff, followed by a 2-byte
little-endian error code, an optional `#`-marked 5-byte SQL state and the
human-readable message. -/
def parse_err_packet (payload : List Nat) : Option ErrPacket :=
  match payload with
  | 0xff :: lo :: hi :: rest =>
    let code := lo + 0x100 * hi
    match rest with
    | 0x23 :: r =>
      some { code := code, sql_state := utf8Lossy (r.take 5),
             message := utf8Lossy (r.drop 5) }
    | r => some { code := code, sql_state := "HY000", message := utf8Lossy r }
  | _ => Option.none

/-- `Conn::handle_packet` (conn/mod.rs:505-520): classify a payload as OK /
ERR / opaque, updating the session state via `handle_ok` / `handle_err`; a
parsed ERR packet is surfaced as a (non-fatal) server error. -/
def handle_packet (st : ConnState) (payload : List Nat) : Except Error Unit × ConnState :=
  let kind := if st.pending_result.isSome then OkPacketKind.resultSetTerminator
              else OkPacketKind.other
  match parse_ok_packet payload kind with
  | some okp => (Except.ok (), handle_ok st okp)
  | Option.none =>
    match parse_err_packet payload with
    | some errp => (Except.error (Error.server errp), handle_err st errp)
    | Option.none => (Except.ok (), st)

/-- What the transport delivers to one `read_packet` call: either a complete
payload or a lower-level IO failure. -/
inductive ReadEvent where
  | ioError (msg : String)
  | payload (bytes : List Nat)
  deriving Repr, DecidableEq

/-- What the transport reports for one `write_packet` call. -/
inductive WriteEvent where
  | ioError (msg : String)
  | sent
  deriving Repr, DecidableEq

/-- `Conn::read_packet` (conn/mod.rs:522-532): on a lower-level IO error the
stream is dropped and `disconnected` is set before the error surfaces; a
received payload goes through `handle_packet`. -/
def read_packet (st : ConnState) (ev : ReadEvent) : Except Error (List Nat) × ConnState :=
  match ev with
  | ReadEvent.ioError m =>
    (Except.error (Error.ioErr m), { st with stream := Option.none, disconnected := true })
  | ReadEvent.payload p =>
    match handle_packet st p with
    | (Except.error e, st') => (Except.error e, st')
    | (Except.ok _, st') => (Except.ok p, st')

/-- `Conn::write_packet` (conn/mod.rs:543-554): on a lower-level IO error the
stream is dropped and `disconnected` is set before the error surfaces. -/
def write_packet (st : ConnState) (ev : WriteEvent) : Except Error Unit × ConnState :=
  match ev with
  | WriteEvent.ioError m =>
    (Except.error (Error.ioErr m), { st with stream := Option.none, disconnected := true })
  | WriteEvent.sent => (Except.ok (), st)

/-! ## Idle expiry -/

/-- `Conn::idling` (conn/mod.rs:687-689): duration since last IO, with
`Instant::now()` passed in as `now`. -/
def idling (st : ConnState) (now : Nat) : Nat :=
  now - st.lastIoTime

/-- `Conn::expired` (conn/mod.rs:677-684): the threshold is `conn_ttl` when
set, otherwise `wait_timeout` (`unwrap_or`). -/
def expired (st : ConnState) (now : Nat) : Bool :=
  decide (idling st now > st.opts.conn_ttl.getD st.wait_timeout)

/-- The expiry predicate as claim C7 words it: elapsed time strictly exceeds
`min(conn_ttl, wait_timeout)` (with `wait_timeout` alone when `conn_ttl` is
unset).  Kept separate from `expired` so the two can be compared. -/
def expired_per_claim (st : ConnState) (now : Nat) : Bool :=
  match st.opts.conn_ttl with
  | some ttl => decide (idling st now > Nat.min ttl st.wait_timeout)
  | Option.none => decide (idling st now > st.wait_timeout)

/-! ## Init commands -/

/-- `Vec::pop` on a Rust vector modelled as a Lean list in the same order:
removes and returns the last element. -/
def vec_pop : List String → Option (String × List String)
  | [] => Option.none
  | a :: t =>
    match vec_pop t with
    | Option.none => some (a, [])
    | some (q, r) => some (q, a :: r)

/-- The loop of `Conn::run_init_commands` (conn/mod.rs:581-589):
`while let Some(query) = init.pop() { self.query_drop(query).await?; }`.
Returns the queries in the order the loop submits them (the trace of the
all-successful execution; a failing `query_drop` would merely cut this trace
short).  The fuel starts at the vector's length; each `pop` shrinks the
vector by one, so the fuel never runs out. -/
def run_init_loop : Nat → List String → List String
  | 0, _ => []
  | fuel + 1, v =>
    match vec_pop v with
    | Option.none => []
    | some (q, rest) => q :: run_init_loop fuel rest

/-- `Conn::run_init_commands` (conn/mod.rs:581-589): collects the configured
init list into a vector and pops queries off its end. -/
def run_init_commands (opts : Opts) : List String :=
  run_init_loop opts.initQueries.length opts.initQueries

/-! ## Cleanup-for-pool -/

/-- One awaited server interaction's outcome as the cleanup loop observes
it: success, or an error of some kind. -/
inductive Outcome where
  | ok
  | fail (e : Error)
  deriving Repr, DecidableEq

/-- `Outcome`s that are not fatal errors (success or a non-fatal error). -/
def outcome_nonfatal : Outcome → Bool
  | Outcome.ok => true
  | Outcome.fail e => !e.is_fatal

/-- Pop the next outcome off the oracle; an exhausted oracle answers `ok`
(a server that keeps responding successfully). -/
def next_outcome : List Outcome → Outcome × List Outcome
  | [] => (Outcome.ok, [])
  | o :: rest => (o, rest)

/-- Modelled from the spec: `QueryResult::drop_result`, the row-stream
collaborator invoked for a pending `Text`/`Binary` result (§4.6 step 1, §6).
It drives the pending result to completion, discarding rows: on success —
and on a non-fatal server error surfaced while consuming the set — the
pending marker ends cleared; a fatal transport error aborts the drive,
setting `disconnected` and dropping the stream as `read_packet` /
`write_packet` do on IO errors. -/
def collaborator_drop (st : ConnState) (oracle : List Outcome) :
    Except Error Unit × ConnState × List Outcome :=
  match next_outcome oracle with
  | (Outcome.ok, rest) =>
    (Except.ok (), { st with pending_result := Option.none }, rest)
  | (Outcome.fail e, rest) =>
    if e.is_fatal then
      (Except.error e, { st with disconnected := true, stream := Option.none }, rest)
    else
      (Except.error e, { st with pending_result := Option.none }, rest)

/-- `Conn::drop_result` (conn/mod.rs:729-747): a pending `Text`/`Binary`
result is drained through the row-stream collaborator; a pending `Error` is
consumed (`set_pending_result(None)`) and surfaced as a non-fatal server
error; nothing pending is a no-op. -/
def drop_result (st : ConnState) (oracle : List Outcome) :
    Except Error Unit × ConnState × List Outcome :=
  match st.pending_result with
  | some (ResultSetMeta.text _) => collaborator_drop st oracle
  | some (ResultSetMeta.binary _) => collaborator_drop st oracle
  | some (ResultSetMeta.error e) =>
    (Except.error (Error.server e), { st with pending_result := Option.none }, oracle)
  | Option.none => (Except.ok (), st, oracle)

/-- Modelled from the spec: `Queryable::query_drop` as `rollback_transaction`
uses it — submit one query and drain its result.  One oracle outcome decides
it; a fatal transport error sets `disconnected` and drops the stream exactly
as `read_packet`/`write_packet` do. -/
def query_drop (st : ConnState) (oracle : List Outcome) :
    Except Error Unit × ConnState × List Outcome :=
  match next_outcome oracle with
  | (Outcome.ok, rest) => (Except.ok (), st, rest)
  | (Outcome.fail e, rest) =>
    if e.is_fatal then
      (Except.error e, { st with disconnected := true, stream := Option.none }, rest)
    else
      (Except.error e, st, rest)

/-- `Conn::rollback_transaction` (conn/mod.rs:713-718): clears `tx_status`
to `None` first, then issues the `ROLLBACK` query. -/
def rollback_transaction (st : ConnState) (oracle : List Outcome) :
    Except Error Unit × ConnState × List Outcome :=
  query_drop { st with tx_status := TxStatus.none } oracle

/-- `Conn::cleanup_for_pool` (conn/mod.rs:752-774), its loop given explicit
fuel: drain a pending result, then roll back an open transaction, swallowing
non-fatal errors; a fatal error aborts the cleanup and propagates.  `none`
signals exhausted fuel; fuel 3 always suffices (`cleanup_loop_bounded`). -/
def cleanup_for_pool : Nat → ConnState → List Outcome → Option (Except Error ConnState)
  | 0, _, _ => Option.none
  | fuel + 1, st, oracle =>
    if st.pending_result.isSome then
      match drop_result st oracle with
      | (Except.error e, st', rest) =>
        if e.is_fatal then some (Except.error e) else cleanup_for_pool fuel st' rest
      | (Except.ok _, st', rest) => cleanup_for_pool fuel st' rest
    else if st.tx_status ≠ TxStatus.none then
      match rollback_transaction st oracle with
      | (Except.error e, st', rest) =>
        if e.is_fatal then some (Except.error e) else cleanup_for_pool fuel st' rest
      | (Except.ok _, st', rest) => cleanup_for_pool fuel st' rest
    else some (Except.ok st)

/-- A connection state with an open transaction and nothing else pending,
used to exhibit the behavior of the cleanup path on a failed `ROLLBACK`. -/
def openTxConn : ConnState :=
  { ConnInner.empty Opts.default 0 with tx_status := TxStatus.inTransaction }

/-- A non-fatal server error as the `ROLLBACK` query may surface it. -/
def rollbackErr : Error :=
  Error.server { code := 1064, sql_state := "42000", message := "syntax error" }

/-! ## Reset -/

/-- Lexicographic strict comparison of `(u16, u16, u16)` version triples
(Rust's derived `Ord` on tuples), as `reset` compares `self.inner.version`
with `(5, 7, 2)`. -/
def version_gt (a b : Nat × Nat × Nat) : Bool :=
  if a.1 ≠ b.1 then decide (a.1 > b.1)
  else if a.2.1 ≠ b.2.1 then decide (a.2.1 > b.2.1)
  else decide (a.2.2 > b.2.2)

/-- Which of the two branches a `reset()` call took. -/
inductive ResetPath where
  | resetCommand
  | reconnect
  deriving Repr, DecidableEq

/-- The environment one `reset()` call interacts with: the session state
after writing `COM_RESET_CONNECTION`, the session state after reading its
reply (new-server branch), the replacement connection delivered by
`Conn::new`, and the outcome of closing the old connection (old-server
branch). -/
structure ResetOracle where
  writeResetCmd : Except Error ConnState
  readReply : Except Error ConnState
  newConn : Except Error ConnState
  closeOld : Except Error Unit

/-- `Conn::reset` (conn/mod.rs:694-711): remember the pool back-reference;
if the server version is strictly above `(5, 7, 2)` send
`COM_RESET_CONNECTION` and read one reply packet, otherwise replace `self`
with a freshly dialed connection and close the old one; then clear the
statement cache and restore the remembered pool. -/
def reset (st : ConnState) (o : ResetOracle) : Except Error ConnState × ResetPath :=
  let pool := st.pool
  if version_gt st.version (5, 7, 2) = true then
    match o.writeResetCmd with
    | Except.error e => (Except.error e, ResetPath.resetCommand)
    | Except.ok _ =>
      match o.readReply with
      | Except.error e => (Except.error e, ResetPath.resetCommand)
      | Except.ok st2 =>
        (Except.ok { st2 with stmt_cache := [], pool := pool }, ResetPath.resetCommand)
  else
    match o.newConn with
    | Except.error e => (Except.error e, ResetPath.reconnect)
    | Except.ok st1 =>
      match o.closeOld with
      | Except.error e => (Except.error e, ResetPath.reconnect)
      | Except.ok _ =>
        (Except.ok { st1 with stmt_cache := [], pool := pool }, ResetPath.reconnect)

/-- A connected state on a recent server with a cached statement and a pool
back-reference, used to instantiate the `reset` theorems. -/
def resetSampleState : ConnState :=
  { ConnInner.empty Opts.default 0 with
    version := (8, 0, 30)
    pool := some 7
    stmt_cache := [("SELECT ?", 1)] }

/-- A `ResetOracle` whose command exchange succeeds. -/
def resetSampleOracle : ResetOracle :=
  { writeResetCmd := Except.ok resetSampleState
    readReply := Except.ok resetSampleState
    newConn := Except.error (Error.driver DriverError.connectionClosed)
    closeOld := Except.ok () }

/-! ## Handshake and authentication -/

/-- The fields `mysql_common::packets::parse_handshake_packet` extracts
from the server greeting (spec §4.3): the two scramble chunks, server
capabilities, parsed version, connection id, status flags and the declared
auth plugin. -/
structure HandshakePacket where
  scramble_1 : List Nat
  scramble_2 : Option (List Nat)
  capabilities : Nat
  server_version : Option (Nat × Nat × Nat)
  connection_id : Nat
  status_flags : Nat
  auth_plugin : Option AuthPlugin
  deriving Repr, DecidableEq

/-- Modelled from the spec: well-formedness of a parsed server greeting —
`parse_handshake_packet` yields the fixed-size 8-byte first chunk of the
"20-byte authentication nonce (scramble)" (spec §4.3). -/
def HandshakePacket.wellFormed (p : HandshakePacket) : Prop :=
  p.scramble_1.length = 8

/-- `Conn::handle_handshake` (conn/mod.rs:325-348), after the greeting has
been read and parsed: store the nonce (first scramble chunk concatenated
with the optional second), intersect capabilities, record version, id and
status, and fix the auth plugin — failing with `UnknownAuthPlugin` carrying
the plugin's name on any plugin other than the two supported ones (a missing
plugin name defaults to `mysql_native_password`). -/
def handle_handshake (st : ConnState) (pkt : HandshakePacket) : Except Error ConnState :=
  let st1 := { st with
    nonce := pkt.scramble_1 ++ (pkt.scramble_2.getD [])
    capabilities := Nat.land pkt.capabilities st.opts.capabilities
    version := pkt.server_version.getD (0, 0, 0)
    id := pkt.connection_id
    status := pkt.status_flags }
  match pkt.auth_plugin with
  | some AuthPlugin.mysqlNativePassword =>
    Except.ok { st1 with auth_plugin := AuthPlugin.mysqlNativePassword }
  | some AuthPlugin.cachingSha2Password =>
    Except.ok { st1 with auth_plugin := AuthPlugin.cachingSha2Password }
  | some (AuthPlugin.other name) =>
    Except.error (Error.driver (DriverError.unknownAuthPlugin (utf8Lossy name)))
  | Option.none =>
    Except.ok { st1 with auth_plugin := AuthPlugin.mysqlNativePassword }

/-- The environment one `Conn::new` run interacts with: the dial result,
the parsed greeting, and all stages following the handshake (SSL switch,
handshake response, auth dialog, compression, post-handshake queries, init
commands) folded into one state transformation, in the order `Conn::new`
chains them. -/
structure ConnectOracle where
  dial : Except Error Stream
  greeting : Except Error HandshakePacket
  afterHandshake : ConnState → Except Error ConnState

/-- `Conn::new` (conn/mod.rs:592-619): build the empty connection, dial,
run the handshake, then the remaining stages; each stage's error aborts the
construction (the `?` operator), so no connection is established. -/
def conn_new (opts : Opts) (now : Nat) (o : ConnectOracle) : Except Error ConnState :=
  let st := ConnInner.empty opts now
  match o.dial with
  | Except.error e => Except.error e
  | Except.ok strm =>
    let st0 := { st with stream := some strm }
    match o.greeting with
    | Except.error e => Except.error e
    | Except.ok pkt =>
      match handle_handshake st0 pkt with
      | Except.error e => Except.error e
      | Except.ok st1 => o.afterHandshake st1

/-- `mysql_common::packets::AuthSwitchRequest`: the plugin to switch to and
the fresh plugin data (nonce). -/
structure AuthSwitchRequest where
  auth_plugin : AuthPlugin
  plugin_data : List Nat
  deriving Repr, DecidableEq

/-- Modelled from the spec: a well-formed auth-switch request rotates in a
fresh nonce — nonempty "server-supplied random bytes used to salt the
authentication hash" (spec §4.3 and glossary). -/
def AuthSwitchRequest.wellFormed (r : AuthSwitchRequest) : Prop :=
  r.plugin_data ≠ []

/-- The session-state effect of `Conn::perform_auth_switch`
(conn/mod.rs:393-396): mark the connection switched, rotate the nonce and
the plugin (the packet write and the recursive `continue_auth` follow these
mutations). -/
def perform_auth_switch_state (st : ConnState) (r : AuthSwitchRequest) : ConnState :=
  { st with
    auth_switched := true
    nonce := r.plugin_data
    auth_plugin := r.auth_plugin }

/-- The password-XOR loop of the caching_sha2 full-authentication insecure
path (conn/mod.rs:466-468): `pass[i] ^= nonce[i % nonce.len()]`.  On an
empty nonce the Rust indexing `i % 0` panics; the model returns `none`
there. -/
def xor_with_nonce (pass nonce : List Nat) : Option (List Nat) :=
  match nonce with
  | [] => Option.none
  | n0 :: ntail =>
    let nz := n0 :: ntail
    some ((pass.enum).map fun ib => Nat.xor ib.2 (nz.getD (ib.1 % nz.length) 0))

/-- The bytes the insecure full-auth branch of
`continue_caching_sha2_password_auth` computes before RSA encryption
(conn/mod.rs:456-470): the NUL-terminated password XORed with the repeating
handshake nonce. -/
def caching_sha2_insecure_xor (st : ConnState) : Option (List Nat) :=
  xor_with_nonce ((st.opts.pass.getD []) ++ [0]) st.nonce

/-- Connection states whose nonce was established along the handshake path:
directly by `handle_handshake` on a well-formed greeting, or rotated by
`perform_auth_switch` on a well-formed auth-switch request.  Every state at
which the caching_sha2 full-auth branch can run is of this shape. -/
inductive NonceEstablished : ConnState → Prop where
  | handshake (st : ConnState) (pkt : HandshakePacket) (st' : ConnState)
      (hwf : pkt.wellFormed) (h : handle_handshake st pkt = Except.ok st') :
      NonceEstablished st'
  | authSwitch (st : ConnState) (r : AuthSwitchRequest)
      (hst : NonceEstablished st) (hwf : r.wellFormed) :
      NonceEstablished (perform_auth_switch_state st r)

/-- A concrete well-formed server greeting declaring
`caching_sha2_password`. -/
def handshakeSamplePacket : HandshakePacket :=
  { scramble_1 := [10, 20, 30, 40, 50, 60, 70, 80]
    scramble_2 := some [1, 2, 3, 4, 5, 6, 7, 8, 9, 11, 12, 13]
    capabilities := 0xffff
    server_version := some (8, 0, 30)
    connection_id := 42
    status_flags := 2
    auth_plugin := some AuthPlugin.cachingSha2Password }

/-- The state `handle_handshake` produces from the sample greeting. -/
def sampleEstablishedState : ConnState :=
  match handle_handshake (ConnInner.empty Opts.default 0) handshakeSamplePacket with
  | Except.ok st => st
  | Except.error _ => ConnInner.empty Opts.default 0

/-- A concrete greeting declaring an unsupported auth plugin (`"foo"`). -/
def otherPluginPacket : HandshakePacket :=
  { scramble_1 := [1, 2, 3, 4, 5, 6, 7, 8]
    scramble_2 := Option.none
    capabilities := 0
    server_version := some (8, 0, 30)
    connection_id := 5
    status_flags := 0
    auth_plugin := some (AuthPlugin.other [102, 111, 111]) }

/-- A `ConnectOracle` that dials fine and delivers `otherPluginPacket`. -/
def otherPluginOracle : ConnectOracle :=
  { dial := Except.ok { secure := false }
    greeting := Except.ok otherPluginPacket
    afterHandshake := fun st => Except.ok st }

/-- "Exactly one of `last_ok_packet` and `last_err_packet` is populated"
(spec §3 / claim C1), stated as boolean inequality of the two `isSome`s. -/
@[reducible] def exactly_one_populated (st : ConnState) : Prop :=
  st.last_ok_packet.isSome ≠ st.last_err_packet.isSome

/-- "At most one of the two is `Some`". -/
def at_most_one_populated (st : ConnState) : Prop :=
  ¬(st.last_ok_packet.isSome = true ∧ st.last_err_packet.isSome = true)

/-- C1 (counterexample): on the freshly constructed connection
(`ConnInner::empty`) both `last_ok_packet` and `last_err_packet` are `None`,
so "exactly one of the two is populated at any observable point" is false at
that observable point (decidably: the exactly-one predicate evaluates to
`false` there). -/
theorem empty_conn_has_no_populated_packet :
    (ConnInner.empty Opts.default 0).last_ok_packet = Option.none
    ∧ (ConnInner.empty Opts.default 0).last_err_packet = Option.none
    ∧ decide (exactly_one_populated (ConnInner.empty Opts.default 0)) = false := by
  exact ⟨rfl, rfl, rfl⟩

/-- C1 (amended): at most one of `last_ok_packet` / `last_err_packet` is
populated at every observable point: the freshly constructed connection has
both `None`, `handle_ok` sets `last_ok_packet` and clears `last_err_packet`,
and `handle_err` sets `last_err_packet` and clears `last_ok_packet`, so after
every `handle_ok`/`handle_err` transition exactly one of the two is `Some`
and the mutual-exclusion invariant is maintained by every transition. -/
theorem last_ok_err_mutual_exclusion :
    ∀ (opts : Opts) (now : Nat) (st : ConnState) (okp : OkPacket) (errp : ErrPacket),
      at_most_one_populated (ConnInner.empty opts now)
      ∧ (handle_ok st okp).last_ok_packet = some okp
      ∧ (handle_ok st okp).last_err_packet = Option.none
      ∧ (handle_err st errp).last_err_packet = some errp
      ∧ (handle_err st errp).last_ok_packet = Option.none
      ∧ exactly_one_populated (handle_ok st okp)
      ∧ exactly_one_populated (handle_err st errp)
      ∧ at_most_one_populated (handle_ok st okp)
      ∧ at_most_one_populated (handle_err st errp) := by
  intro opts now st okp errp
  refine ⟨?_, rfl, rfl, rfl, rfl, ?_, ?_, ?_, ?_⟩ <;>
    simp [at_most_one_populated, exactly_one_populated, ConnInner.empty,
      handle_ok, handle_err]

/-- Helper: `handle_packet` never touches the `disconnected` flag or the
stream, whatever the payload classified as. -/
theorem handle_packet_preserves_disconnected_stream (st : ConnState) (p : List Nat) :
    (handle_packet st p).2.disconnected = st.disconnected
    ∧ (handle_packet st p).2.stream = st.stream := by
  simp only [handle_packet]
  cases h1 : parse_ok_packet p
      (if st.pending_result.isSome then OkPacketKind.resultSetTerminator
       else OkPacketKind.other) with
  | none =>
    cases h2 : parse_err_packet p with
    | none => simp
    | some errp => simp [handle_err]
  | some okp => simp [handle_ok]

/-- Helper: reading a complete payload (of any shape, ERR packets included)
leaves `disconnected` and the stream as they were. -/
theorem read_packet_payload_keeps_state (st : ConnState) (p : List Nat) :
    (read_packet st (ReadEvent.payload p)).2.disconnected = st.disconnected
    ∧ (read_packet st (ReadEvent.payload p)).2.stream = st.stream := by
  have h := handle_packet_preserves_disconnected_stream st p
  simp only [read_packet]
  rcases hm : handle_packet st p with ⟨r, st'⟩
  rw [hm] at h
  cases r <;> simpa using h

/-- C5: receiving a well-formed ERR packet (indeed, any complete payload)
never sets the `disconnected` flag and keeps the stream, and `handle_err`
itself leaves `disconnected` alone; whereas a lower-level IO error surfaced
by `read_packet` or by `write_packet` sets `disconnected = true` and drops
the stream. -/
theorem err_packet_nonfatal_io_error_fatal :
    ∀ (st : ConnState) (p : List Nat) (m : String) (e : ErrPacket),
      ((read_packet st (ReadEvent.payload p)).2.disconnected = st.disconnected
        ∧ (read_packet st (ReadEvent.payload p)).2.stream = st.stream)
      ∧ (handle_err st e).disconnected = st.disconnected
      ∧ ((read_packet st (ReadEvent.ioError m)).2.disconnected = true
        ∧ (read_packet st (ReadEvent.ioError m)).2.stream = Option.none)
      ∧ ((write_packet st (WriteEvent.ioError m)).2.disconnected = true
        ∧ (write_packet st (WriteEvent.ioError m)).2.stream = Option.none) := by
  intro st p m e
  exact ⟨read_packet_payload_keeps_state st p, rfl, ⟨rfl, rfl⟩, ⟨rfl, rfl⟩⟩

/-- Helper: popping a vector returns its last element and the front. -/
theorem vec_pop_append (v : List String) (x : String) :
    vec_pop (v ++ [x]) = some (x, v) := by
  induction v with
  | nil => rfl
  | cons a t ih => simp [vec_pop, ih]

/-- Helper: the init loop submits the configured queries in reverse order. -/
theorem run_init_loop_reverse (v : List String) :
    run_init_loop v.length v = v.reverse := by
  induction v using List.reverseRecOn with
  | nil => rfl
  | append_singleton t x ih =>
    have hlen : (t ++ [x]).length = t.length + 1 := by simp
    rw [hlen]
    simp [run_init_loop, vec_pop_append, ih]

/-- Helper: `run_init_commands` executes the configured init list back to
front. -/
theorem run_init_commands_eq_reverse (opts : Opts) :
    run_init_commands opts = opts.initQueries.reverse := by
  simpa [run_init_commands] using run_init_loop_reverse opts.initQueries

/-- C6: with the configured init list
`["CREATE TABLE t (a INT)", "INSERT INTO t VALUES (1)"]` the loop of
`run_init_commands` submits the `INSERT` first and the `CREATE` last — the
reverse of the configured order — because it pops queries off the end of the
vector.  The spec requires execution in configured order, so the code
diverges from it on any order-sensitive init list. -/
theorem init_commands_executed_in_reverse :
    run_init_commands
        { Opts.default with
          initQueries := ["CREATE TABLE t (a INT)", "INSERT INTO t VALUES (1)"] }
      = ["INSERT INTO t VALUES (1)", "CREATE TABLE t (a INT)"]
    ∧ decide (run_init_commands
        { Opts.default with
          initQueries := ["CREATE TABLE t (a INT)", "INSERT INTO t VALUES (1)"] }
      = ["CREATE TABLE t (a INT)", "INSERT INTO t VALUES (1)"]) = false := by
  exact ⟨rfl, by decide⟩

/-- C7 (counterexample): with `conn_ttl = 100`, `wait_timeout = 10` and
50 units elapsed since the last IO, the claimed predicate
`elapsed > min(conn_ttl, wait_timeout)` is true while `expired` returns
false: the code uses `conn_ttl` alone when it is set, not the minimum. -/
theorem expired_not_min_counterexample :
    expired
        { ConnInner.empty { Opts.default with conn_ttl := some 100 } 0 with
          wait_timeout := 10 } 50 = false
    ∧ expired_per_claim
        { ConnInner.empty { Opts.default with conn_ttl := some 100 } 0 with
          wait_timeout := 10 } 50 = true := by
  constructor <;> rfl

/-- C7 (amended): `expired()` returns true exactly when the time elapsed
since the last IO exceeds `conn_ttl` when `conn_ttl` is set, and exactly when
it exceeds `wait_timeout` otherwise (`wait_timeout` plays no role when
`conn_ttl` is set). -/
theorem expired_iff_ttl_threshold :
    ∀ (st : ConnState) (now : Nat),
      expired st now = true ↔
        (match st.opts.conn_ttl with
         | some ttl => idling st now > ttl
         | Option.none => idling st now > st.wait_timeout) := by
  intro st now
  cases h : st.opts.conn_ttl <;> simp [expired, h]

/-- Helper: the loop body of `cleanup_for_pool`, exposed as a one-step
unfolding. -/
theorem cleanup_step (fuel : Nat) (st : ConnState) (o : List Outcome) :
    cleanup_for_pool (fuel + 1) st o =
      (if st.pending_result.isSome then
        match drop_result st o with
        | (Except.error e, st', rest) =>
          if e.is_fatal then some (Except.error e) else cleanup_for_pool fuel st' rest
        | (Except.ok _, st', rest) => cleanup_for_pool fuel st' rest
      else if st.tx_status ≠ TxStatus.none then
        match rollback_transaction st o with
        | (Except.error e, st', rest) =>
          if e.is_fatal then some (Except.error e) else cleanup_for_pool fuel st' rest
        | (Except.ok _, st', rest) => cleanup_for_pool fuel st' rest
      else some (Except.ok st)) := rfl

/-- Helper: a connection with nothing pending and no open transaction exits
the cleanup loop at once, unchanged. -/
theorem cleanup_clean_state (fuel : Nat) (st : ConnState) (o : List Outcome)
    (h1 : st.pending_result = Option.none) (h2 : st.tx_status = TxStatus.none) :
    cleanup_for_pool (fuel + 1) st o = some (Except.ok st) := by
  rw [cleanup_step]
  simp [h1, h2]

/-- Helper: once no result is pending, two more loop iterations settle the
cleanup: the result exists, a propagated error is fatal, an all-non-fatal
oracle yields success, and a successfully returned state has no transaction
and nothing pending. -/
theorem cleanup_pending_none (fuel : Nat) (st : ConnState) (o : List Outcome)
    (h : st.pending_result = Option.none) :
    ∃ r, cleanup_for_pool (fuel + 2) st o = some r
      ∧ (∀ e, r = Except.error e → e.is_fatal = true)
      ∧ ((∀ x ∈ o, outcome_nonfatal x = true) → ∃ st', r = Except.ok st')
      ∧ (∀ st', r = Except.ok st' →
          st'.tx_status = TxStatus.none ∧ st'.pending_result = Option.none) := by
  rw [show fuel + 2 = (fuel + 1) + 1 from rfl, cleanup_step]
  by_cases htx : st.tx_status = TxStatus.none
  · refine ⟨Except.ok st, by simp [h, htx], by simp, fun _ => ⟨st, rfl⟩, ?_⟩
    intro st' hst'
    cases hst'
    exact ⟨htx, h⟩
  · have hclean : ∀ (o' : List Outcome),
        cleanup_for_pool (fuel + 1) { st with tx_status := TxStatus.none } o'
          = some (Except.ok { st with tx_status := TxStatus.none }) := by
      intro o'
      exact cleanup_clean_state fuel _ o' h rfl
    have hgoal : ∀ (o' : List Outcome),
        ∃ r, cleanup_for_pool (fuel + 1) { st with tx_status := TxStatus.none } o'
            = some r
          ∧ (∀ e, r = Except.error e → e.is_fatal = true)
          ∧ ((∀ x ∈ o, outcome_nonfatal x = true) → ∃ st', r = Except.ok st')
          ∧ (∀ st', r = Except.ok st' →
              st'.tx_status = TxStatus.none ∧ st'.pending_result = Option.none) := by
      intro o'
      refine ⟨Except.ok { st with tx_status := TxStatus.none }, hclean o', by simp,
        fun _ => ⟨_, rfl⟩, ?_⟩
      intro st' hst'
      cases hst'
      exact ⟨rfl, h⟩
    cases o with
    | nil =>
      simpa [h, htx, rollback_transaction, query_drop, next_outcome] using hgoal []
    | cons out rest =>
      cases out with
      | ok =>
        simpa [h, htx, rollback_transaction, query_drop, next_outcome] using hgoal rest
      | fail e =>
        by_cases hf : e.is_fatal = true
        · refine ⟨Except.error e,
            by simp [h, htx, rollback_transaction, query_drop, next_outcome, hf], ?_, ?_, ?_⟩
          · intro e' he'
            cases he'
            exact hf
          · intro hall
            exact absurd (hall (Outcome.fail e) (by simp)) (by simp [outcome_nonfatal, hf])
          · intro st' hst'
            cases hst'
        · simpa [h, htx, rollback_transaction, query_drop, next_outcome, hf] using hgoal rest

/-- Helper: full characterization of the cleanup loop at fuel 3, from any
state: it always settles; a propagated error is fatal; with only non-fatal
outcomes it returns a connection; a returned connection has no transaction
and nothing pending. -/
theorem cleanup_characterization (st : ConnState) (o : List Outcome) :
    ∃ r, cleanup_for_pool 3 st o = some r
      ∧ (∀ e, r = Except.error e → e.is_fatal = true)
      ∧ ((∀ x ∈ o, outcome_nonfatal x = true) → ∃ st', r = Except.ok st')
      ∧ (∀ st', r = Except.ok st' →
          st'.tx_status = TxStatus.none ∧ st'.pending_result = Option.none) := by
  cases hp : st.pending_result with
  | none => exact cleanup_pending_none 1 st o hp
  | some meta =>
    rw [show (3 : Nat) = 2 + 1 from rfl, cleanup_step]
    have htail : ∀ (o' : List Outcome) (hsub : ∀ x ∈ o', x ∈ o),
        ∃ r, cleanup_for_pool 2 { st with pending_result := Option.none } o' = some r
          ∧ (∀ e, r = Except.error e → e.is_fatal = true)
          ∧ ((∀ x ∈ o, outcome_nonfatal x = true) → ∃ st', r = Except.ok st')
          ∧ (∀ st', r = Except.ok st' →
              st'.tx_status = TxStatus.none ∧ st'.pending_result = Option.none) := by
      intro o' hsub
      obtain ⟨r, hr, he, hn, hok⟩ :=
        cleanup_pending_none 0 { st with pending_result := Option.none } o' rfl
      exact ⟨r, hr, he, fun hall => hn (fun x hx => hall x (hsub x hx)), hok⟩
    cases meta with
    | error e =>
      simpa [hp, drop_result, Error.is_fatal] using htail o (fun _ hx => hx)
    | text cols =>
      cases o with
      | nil =>
        simpa [hp, drop_result, collaborator_drop, next_outcome] using
          htail [] (by simp)
      | cons out rest =>
        cases out with
        | ok =>
          simpa [hp, drop_result, collaborator_drop, next_outcome] using
            htail rest (fun x hx => List.mem_cons_of_mem _ hx)
        | fail e =>
          by_cases hf : e.is_fatal = true
          · refine ⟨Except.error e,
              by simp [hp, drop_result, collaborator_drop, next_outcome, hf], ?_, ?_, ?_⟩
            · intro e' he'
              cases he'
              exact hf
            · intro hall
              exact absurd (hall (Outcome.fail e) (by simp))
                (by simp [outcome_nonfatal, hf])
            · intro st' hst'
              cases hst'
          · simpa [hp, drop_result, collaborator_drop, next_outcome, hf] using
              htail rest (fun x hx => List.mem_cons_of_mem _ hx)
    | binary cols =>
      cases o with
      | nil =>
        simpa [hp, drop_result, collaborator_drop, next_outcome] using
          htail [] (by simp)
      | cons out rest =>
        cases out with
        | ok =>
          simpa [hp, drop_result, collaborator_drop, next_outcome] using
            htail rest (fun x hx => List.mem_cons_of_mem _ hx)
        | fail e =>
          by_cases hf : e.is_fatal = true
          · refine ⟨Except.error e,
              by simp [hp, drop_result, collaborator_drop, next_outcome, hf], ?_, ?_, ?_⟩
            · intro e' he'
              cases he'
              exact hf
            · intro hall
              exact absurd (hall (Outcome.fail e) (by simp))
                (by simp [outcome_nonfatal, hf])
            · intro st' hst'
              cases hst'
          · simpa [hp, drop_result, collaborator_drop, next_outcome, hf] using
              htail rest (fun x hx => List.mem_cons_of_mem _ hx)

/-- C4: for every connection state and every sequence of server-interaction
outcomes (malformed or adversarial ones included), the `cleanup_for_pool`
loop settles within three iterations — the loop's fuel of 3 is never
exhausted. -/
theorem cleanup_loop_bounded :
    ∀ (st : ConnState) (o : List Outcome), (cleanup_for_pool 3 st o).isSome = true := by
  intro st o
  obtain ⟨r, hr, -, -, -⟩ := cleanup_characterization st o
  rw [hr]
  rfl

/-- C3: inside the cleanup loop, every non-fatal error is swallowed — if all
outcomes the loop observes are non-fatal, the connection is eventually
returned successfully — while a fatal error aborts the cleanup immediately
(the remaining oracle is never consulted) and propagates to the caller;
conversely, every error the loop propagates is fatal. -/
theorem cleanup_error_policy :
    (∀ (st : ConnState) (o : List Outcome),
        (∀ x ∈ o, outcome_nonfatal x = true) →
          ∃ st', cleanup_for_pool 3 st o = some (Except.ok st'))
    ∧ (∀ (st : ConnState) (o : List Outcome) (e : Error),
        cleanup_for_pool 3 st o = some (Except.error e) → e.is_fatal = true)
    ∧ (∀ (st : ConnState) (rest : List Outcome) (e : Error) (cols : Nat),
        st.pending_result = some (ResultSetMeta.text cols) → e.is_fatal = true →
          cleanup_for_pool 3 st (Outcome.fail e :: rest) = some (Except.error e)) := by
  refine ⟨?_, ?_, ?_⟩
  · intro st o hall
    obtain ⟨r, hr, -, hn, -⟩ := cleanup_characterization st o
    obtain ⟨st', hst'⟩ := hn hall
    exact ⟨st', by rw [hr, hst']⟩
  · intro st o e h
    obtain ⟨r, hr, he, -, -⟩ := cleanup_characterization st o
    exact he e (Option.some.inj (hr.symm.trans h))
  · intro st rest e cols hpend hf
    rw [show (3 : Nat) = 2 + 1 from rfl, cleanup_step]
    simp [hpend, drop_result, collaborator_drop, next_outcome, hf]

/-- C3 (witness): at a concrete state with a pending text result, a
non-fatal server error during the drain still ends with the connection
returned, while a fatal IO error at the same point aborts with that error. -/
theorem cleanup_error_policy_witness :
    (cleanup_for_pool 3
        { ConnInner.empty Opts.default 0 with
          pending_result := some (ResultSetMeta.text 1) }
        [Outcome.fail rollbackErr]).isSome = true
    ∧ (cleanup_for_pool 3
        { ConnInner.empty Opts.default 0 with
          pending_result := some (ResultSetMeta.text 1) }
        [Outcome.fail rollbackErr]).getD (Except.error rollbackErr)
      = Except.ok { ConnInner.empty Opts.default 0 with pending_result := Option.none }
    ∧ cleanup_for_pool 3
        { ConnInner.empty Opts.default 0 with
          pending_result := some (ResultSetMeta.text 1) }
        [Outcome.fail (Error.ioErr "broken pipe")]
      = some (Except.error (Error.ioErr "broken pipe")) := by
  have hnf : ∀ x ∈ [Outcome.fail rollbackErr], outcome_nonfatal x = true := by
    intro x hx
    simp only [List.mem_singleton] at hx
    subst hx
    decide
  obtain ⟨st', hst'⟩ := cleanup_error_policy.1
    { ConnInner.empty Opts.default 0 with
      pending_result := some (ResultSetMeta.text 1) }
    [Outcome.fail rollbackErr] hnf
  refine ⟨by rw [hst']; rfl, ?_, cleanup_error_policy.2.2 _ [] _ 1 rfl rfl⟩
  rfl

/-- C2 (counterexample): at a connection with an open transaction, a
`ROLLBACK` that fails with a non-fatal server error leaves `tx_status`
cleared to `None` anyway (it is cleared before the query is issued), and
`cleanup_for_pool` still completes successfully — the connection is returned
to the pool although no rollback succeeded and the connection was never
marked disconnected. -/
theorem rollback_failure_conn_still_pooled :
    (rollback_transaction openTxConn [Outcome.fail rollbackErr]).1
        = Except.error rollbackErr
    ∧ ((rollback_transaction openTxConn [Outcome.fail rollbackErr]).2.1).tx_status
        = TxStatus.none
    ∧ cleanup_for_pool 3 openTxConn [Outcome.fail rollbackErr]
        = some (Except.ok { openTxConn with tx_status := TxStatus.none })
    ∧ ({ openTxConn with tx_status := TxStatus.none }).disconnected = false
    ∧ openTxConn.tx_status = TxStatus.inTransaction := by
  exact ⟨rfl, rfl, rfl, rfl, rfl⟩

/-- C2 (amended): `rollback_transaction` clears `tx_status` to `None`
unconditionally, before the `ROLLBACK` query's outcome is known; a
connection that `cleanup_for_pool` returns successfully always has
`tx_status = None` and nothing pending, but its return is not contingent on
the rollback having succeeded — only a fatal error prevents it. -/
theorem pooled_conn_tx_cleared :
    (∀ (st : ConnState) (o : List Outcome) (st' : ConnState),
        cleanup_for_pool 3 st o = some (Except.ok st') →
          st'.tx_status = TxStatus.none ∧ st'.pending_result = Option.none)
    ∧ (∀ (st : ConnState) (o : List Outcome),
        ((rollback_transaction st o).2.1).tx_status = TxStatus.none) := by
  constructor
  · intro st o st' h
    obtain ⟨r, hr, -, -, hok⟩ := cleanup_characterization st o
    exact hok st' (Option.some.inj (hr.symm.trans h))
  · intro st o
    cases o with
    | nil => rfl
    | cons out rest =>
      cases out with
      | ok => rfl
      | fail e =>
        by_cases hf : e.is_fatal = true <;>
          simp [rollback_transaction, query_drop, next_outcome, hf]

/-- C2 amended (witness): at a freshly constructed connection the cleanup
returns at once, and the returned state indeed has no transaction and no
pending result. -/
theorem pooled_conn_tx_cleared_witness :
    ((ConnInner.empty Opts.default 0).tx_status = TxStatus.none
      ∧ (ConnInner.empty Opts.default 0).pending_result = Option.none)
    ∧ ((rollback_transaction openTxConn []).2.1).tx_status = TxStatus.none := by
  exact ⟨pooled_conn_tx_cleared.1 (ConnInner.empty Opts.default 0) []
    (ConnInner.empty Opts.default 0) rfl, pooled_conn_tx_cleared.2 openTxConn []⟩

/-- C8: `reset()` takes the `COM_RESET_CONNECTION` branch exactly when the
server version is strictly greater than `(5, 7, 2)` (otherwise it replaces
the connection with a freshly dialed one), and in both branches every
successful reset ends with an empty statement cache and the pool
back-reference unchanged from before the call. -/
theorem reset_clears_cache_keeps_pool :
    ∀ (st : ConnState) (o : ResetOracle),
      ((reset st o).2 = ResetPath.resetCommand ↔ version_gt st.version (5, 7, 2) = true)
      ∧ (∀ st', (reset st o).1 = Except.ok st' →
          st'.stmt_cache = [] ∧ st'.pool = st.pool) := by
  intro st o
  by_cases hv : version_gt st.version (5, 7, 2) = true
  · cases hw : o.writeResetCmd with
    | error e =>
      refine ⟨by simp [reset, hv, hw], ?_⟩
      intro st' h
      simp [reset, hv, hw] at h
    | ok st1 =>
      cases hr : o.readReply with
      | error e =>
        refine ⟨by simp [reset, hv, hw, hr], ?_⟩
        intro st' h
        simp [reset, hv, hw, hr] at h
      | ok st2 =>
        refine ⟨by simp [reset, hv, hw, hr], ?_⟩
        intro st' h
        simp [reset, hv, hw, hr] at h
        subst h
        exact ⟨rfl, rfl⟩
  · cases hn : o.newConn with
    | error e =>
      refine ⟨by simp [reset, hv, hn], ?_⟩
      intro st' h
      simp [reset, hv, hn] at h
    | ok st1 =>
      cases hc : o.closeOld with
      | error e =>
        refine ⟨by simp [reset, hv, hn, hc], ?_⟩
        intro st' h
        simp [reset, hv, hn, hc] at h
      | ok u =>
        refine ⟨by simp [reset, hv, hn, hc], ?_⟩
        intro st' h
        simp [reset, hv, hn, hc] at h
        subst h
        exact ⟨rfl, rfl⟩

/-- C8 (witness): a successful reset at the sample state indeed leaves the
cache empty and the pool back-reference intact. -/
theorem reset_clears_cache_keeps_pool_witness :
    ({ resetSampleState with stmt_cache := [], pool := resetSampleState.pool }
        : ConnState).stmt_cache = []
    ∧ ({ resetSampleState with stmt_cache := [], pool := resetSampleState.pool }
        : ConnState).pool = resetSampleState.pool :=
  (reset_clears_cache_keeps_pool resetSampleState resetSampleOracle).2 _ rfl

/-- C9: a server greeting declaring any auth plugin other than
`mysql_native_password` and `caching_sha2_password` makes the handshake fail
with `UnknownAuthPlugin` carrying that plugin's name, and `Conn::new`
propagates that error so no connection is established. -/
theorem unknown_auth_plugin_fails_handshake :
    ∀ (st : ConnState) (pkt : HandshakePacket) (name : List Nat),
      pkt.auth_plugin = some (AuthPlugin.other name) →
        handle_handshake st pkt
            = Except.error (Error.driver (DriverError.unknownAuthPlugin (utf8Lossy name)))
        ∧ (∀ (opts : Opts) (now : Nat) (o : ConnectOracle) (s : Stream),
            o.dial = Except.ok s → o.greeting = Except.ok pkt →
              conn_new opts now o
                = Except.error
                    (Error.driver (DriverError.unknownAuthPlugin (utf8Lossy name)))) := by
  intro st pkt name hp
  have hfail : ∀ (st0 : ConnState),
      handle_handshake st0 pkt
        = Except.error (Error.driver (DriverError.unknownAuthPlugin (utf8Lossy name))) := by
    intro st0
    simp [handle_handshake, hp]
  refine ⟨hfail st, ?_⟩
  intro opts now o s hd hg
  simp [conn_new, hd, hg, hfail]

/-- C9 (witness): the concrete greeting declaring plugin `"foo"` aborts
both the handshake and the whole `Conn::new` pipeline with
`UnknownAuthPlugin "foo"`. -/
theorem unknown_auth_plugin_fails_handshake_witness :
    handle_handshake (ConnInner.empty Opts.default 0) otherPluginPacket
        = Except.error
            (Error.driver (DriverError.unknownAuthPlugin (utf8Lossy [102, 111, 111])))
    ∧ conn_new Opts.default 0 otherPluginOracle
        = Except.error
            (Error.driver (DriverError.unknownAuthPlugin (utf8Lossy [102, 111, 111]))) := by
  have h := unknown_auth_plugin_fails_handshake (ConnInner.empty Opts.default 0)
    otherPluginPacket [102, 111, 111] rfl
  exact ⟨h.1, h.2 Opts.default 0 otherPluginOracle { secure := false } rfl rfl⟩

/-- C10: at every state whose nonce was established along the handshake
path (well-formed greeting, possibly followed by auth switches), the stored
nonce is nonempty, so the password-XOR computation of the caching_sha2
full-auth insecure branch is defined (its `i % 0` panic branch is
unreachable) and every index `i % nonce.len()` is in bounds. -/
theorem established_nonce_nonempty_xor_defined :
    ∀ (st : ConnState), NonceEstablished st →
      st.nonce ≠ []
      ∧ (caching_sha2_insecure_xor st).isSome = true
      ∧ (∀ (i : Nat), i % st.nonce.length < st.nonce.length) := by
  intro st h
  have hne : st.nonce ≠ [] := by
    induction h with
    | handshake st0 pkt st' hwf heq =>
      have hnonce : st'.nonce = pkt.scramble_1 ++ (pkt.scramble_2.getD []) := by
        cases hap : pkt.auth_plugin with
        | none =>
          simp only [handle_handshake, hap, Except.ok.injEq] at heq
          subst heq
          rfl
        | some p =>
          cases p with
          | mysqlNativePassword =>
            simp only [handle_handshake, hap, Except.ok.injEq] at heq
            subst heq
            rfl
          | cachingSha2Password =>
            simp only [handle_handshake, hap, Except.ok.injEq] at heq
            subst heq
            rfl
          | other nm =>
            simp [handle_handshake, hap] at heq
      intro hempty
      rw [hnonce] at hempty
      have h1 : pkt.scramble_1 = [] := (List.append_eq_nil.mp hempty).1
      have hwf' : pkt.scramble_1.length = 8 := hwf
      rw [h1] at hwf'
      simp at hwf'
    | authSwitch st0 r hst hwf ih =>
      simpa [perform_auth_switch_state] using hwf
  have hpos : 0 < st.nonce.length := List.length_pos.mpr hne
  refine ⟨hne, ?_, fun i => Nat.mod_lt i hpos⟩
  cases hn : st.nonce with
  | nil => exact absurd hn hne
  | cons a t => simp [caching_sha2_insecure_xor, xor_with_nonce, hn]

/-- C10 (witness): the state built by `handle_handshake` from the sample
greeting has a nonempty nonce and a defined password-XOR. -/
theorem established_nonce_nonempty_xor_defined_witness :
    (caching_sha2_insecure_xor sampleEstablishedState).isSome = true
    ∧ sampleEstablishedState.nonce.length = 20 := by
  have h := established_nonce_nonempty_xor_defined sampleEstablishedState
    (NonceEstablished.handshake (ConnInner.empty Opts.default 0) handshakeSamplePacket
      sampleEstablishedState rfl rfl)
  exact ⟨h.2.1, rfl⟩

end Mysql
